import Mathlib

/-!
# Verification of the TASTYBOX variant-generation and caching orchestrator

Shallow embedding of the core of the repository: the provider response
interpreter (`handleApiResponse` in `src/services/geminiService.ts`) and the
variant cache / session controller (`handleStart`, `handleAngleSelect`,
`handleStartOver`, `displayImageUrl` in the main application component).

JavaScript objects used as ordered maps are modelled as association lists in
insertion order; JavaScript truthiness on strings is `s ≠ ""`; optional fields
are `Option`; a thrown `Error` is the `Except.error` branch carrying the
message string.  The asynchronous provider call made by a transition is
modelled by passing the call's result (`Except String String`) as an explicit
argument, and the transition additionally reports the request it issued (base
image, instruction, session state at the moment of the call) so that claims
about the request itself can be stated.
-/

set_option autoImplicit false

namespace TastyBox

/-- Inline image payload inside a provider response part
(`inlineData: { mimeType, data }`). -/
structure InlineData where
  mimeType : String
  data : String
  deriving DecidableEq, Repr

/-- One part of a candidate's content; only the `inlineData` field is
inspected by the interpreter. -/
structure ResponsePart where
  inlineData : Option InlineData
  deriving DecidableEq, Repr

/-- A candidate's `content` object (`parts` is optional). -/
structure Content where
  parts : Option (List ResponsePart)
  deriving DecidableEq, Repr

/-- One candidate of a provider response. -/
structure Candidate where
  content : Option Content
  finishReason : Option String
  deriving DecidableEq, Repr

/-- The `promptFeedback` object of a provider response. -/
structure PromptFeedback where
  blockReason : Option String
  blockReasonMessage : Option String
  deriving DecidableEq, Repr

/-- The provider response shape read by `handleApiResponse`:
`promptFeedback`, `candidates` and the aggregated `text` accessor. -/
structure GenerateContentResponse where
  promptFeedback : Option PromptFeedback
  candidates : Option (List Candidate)
  text : Option String
  deriving DecidableEq, Repr

/-- JavaScript truthiness of an optional string: present and non-empty. -/
def strTruthy : Option String → Bool
  | some s => s ≠ ""
  | none => false

/-- `candidate.content?.parts?.find(part => part.inlineData)?.inlineData`:
the first inline image payload of one candidate, if any. -/
def candidateImage (c : Candidate) : Option InlineData :=
  match c.content with
  | none => none
  | some ct =>
    match ct.parts with
    | none => none
    | some ps => (ps.find? fun p => p.inlineData.isSome).bind (·.inlineData)

/-- The `for (const candidate of response.candidates ?? [])` loop: first
candidate containing an inline image, scanned in order. -/
def firstImage : List Candidate → Option InlineData
  | [] => none
  | c :: rest =>
    match candidateImage c with
    | some d => some d
    | none => firstImage rest

/-- The error message for a blocked request. -/
def blockedMsg (blockReason : String) (blockReasonMessage : Option String) : String :=
  "La solicitud fue bloqueada. Razón: " ++ blockReason ++ ". " ++ blockReasonMessage.getD ""

/-- The error message for an abnormal finish reason. -/
def abnormalMsg (finishReason : String) : String :=
  "La generación de imágenes se detuvo inesperadamente. Razón: " ++ finishReason ++
    ". Esto a menudo se relaciona con la configuración de seguridad."

/-- The error message when no image was produced, carrying the model's text
feedback when that is truthy. -/
def noImageMsg (text : Option String) : String :=
  let textFeedback := text.map String.trim
  "El modelo de IA no devolvió una imagen. " ++
    (match textFeedback with
     | some t =>
       if t ≠ "" then "El modelo respondió con texto: \"" ++ t ++ "\""
       else "Esto puede ocurrir debido a los filtros de seguridad o si la solicitud es demasiado compleja. Por favor, intenta con una imagen diferente."
     | none => "Esto puede ocurrir debido a los filtros de seguridad o si la solicitud es demasiado compleja. Por favor, intenta con una imagen diferente.")

/-- `handleApiResponse` from `src/services/geminiService.ts`: ordered fallback
over block reason, inline image scan, first candidate's finish reason, and the
no-image error. -/
def handleApiResponse (r : GenerateContentResponse) : Except String String :=
  if strTruthy (r.promptFeedback.bind (·.blockReason)) then
    match r.promptFeedback with
    | some pf => .error (blockedMsg (pf.blockReason.getD "") pf.blockReasonMessage)
    | none => .error (blockedMsg "" none)
  else
    match firstImage (r.candidates.getD []) with
    | some d => .ok ("data:" ++ d.mimeType ++ ";base64," ++ d.data)
    | none =>
      let finishReason := ((r.candidates.getD []).head?).bind (·.finishReason)
      match finishReason with
      | some fr =>
        if fr ≠ "" ∧ fr ≠ "STOP" then .error (abnormalMsg fr)
        else .error (noImageMsg r.text)
      | none => .error (noImageMsg r.text)

/-- `BoxItem` from `types.ts`. -/
structure BoxItem where
  id : String
  name : String
  url : String
  deriving DecidableEq, Repr

/-- A user-supplied logo file; only its identity matters to the controller. -/
structure LogoFile where
  name : String
  deriving DecidableEq, Repr

/-- `defaultBox` from `wardrobe.ts`. -/
def defaultBox : BoxItem :=
  { id := "cardboard-box"
    name := "Caja de Regalo de Cartón"
    url := "https://i.imgur.com/8N4R42t.jpeg" }

/-- `ANGLE_INSTRUCTIONS`: the fixed ordered sequence of view keys. -/
def ANGLE_INSTRUCTIONS : List String :=
  ["Vista Frontal", "Vista en Ángulo", "Vista Superior",
   "Primer Plano del Logo", "En un Entorno de Lujo"]

/-- The session state of the `App` component: one field per `useState` hook.
`generatedImages` is the variant cache, an object keyed by angle instruction,
modelled as an association list in insertion order. -/
structure AppState where
  selectedBox : Option BoxItem
  logoFile : Option LogoFile
  generatedImages : List (String × String)
  currentAngleIndex : Nat
  isLoading : Bool
  loadingMessage : String
  error : Option String
  deriving DecidableEq, Repr

/-- The JavaScript spread update `{ ...prev, [k]: v }` on an object with
unique keys: replace the value in place when the key exists, append
otherwise. -/
def insertJS (m : List (String × String)) (k v : String) : List (String × String) :=
  match m with
  | [] => [(k, v)]
  | (k', v') :: rest => if k' = k then (k, v) :: rest else (k', v') :: insertJS rest k v

/-- `displayImageUrl`:
`generatedImages[currentAngleInstruction] ?? Object.values(generatedImages)[0] ?? selectedBox?.url`. -/
def displayImageUrl (s : AppState) : Option String :=
  let currentAngleInstruction := ANGLE_INSTRUCTIONS.getD s.currentAngleIndex ""
  (s.generatedImages.lookup currentAngleInstruction).orElse fun _ =>
    (s.generatedImages.head?.map (·.2)).orElse fun _ =>
      s.selectedBox.map (·.url)

/-- Result of a `handleStart` invocation: the final state and the state as it
stood when the provider call `generateLogoOnBoxImage` was issued. -/
structure StartResult where
  final : AppState
  stateAtCall : AppState
  deriving DecidableEq, Repr

/-- `handleStart`: set the box and logo selection, clear the error, enter the
loading state, call the provider, and on success seed the cache with the first
view while on failure record the error and clear the selection.  `friendly` is
`getFriendlyErrorMessage` (defined outside the covered core); `genResult` is
the outcome of the awaited `generateLogoOnBoxImage` call. -/
def handleStart (friendly : String → String → String) (genResult : Except String String)
    (s : AppState) (box : BoxItem) (logo : LogoFile) : StartResult :=
  let s1 : AppState :=
    { s with
      selectedBox := some box
      logoFile := some logo
      error := none
      isLoading := true
      loadingMessage := "Colocando tu logo en la " ++ box.name ++ "..." }
  let s2 : AppState :=
    match genResult with
    | .ok newImageUrl =>
      { s1 with
        generatedImages := [(ANGLE_INSTRUCTIONS.getD 0 "", newImageUrl)]
        currentAngleIndex := 0 }
    | .error err =>
      { s1 with
        error := some (friendly err "No se pudo generar la maqueta")
        selectedBox := none
        logoFile := none }
  { final := { s2 with isLoading := false, loadingMessage := "" }
    stateAtCall := s1 }

/-- `handleStartOver`: reset every state field. -/
def handleStartOver (_s : AppState) : AppState :=
  { selectedBox := none
    logoFile := none
    generatedImages := []
    currentAngleIndex := 0
    isLoading := false
    loadingMessage := ""
    error := none }

/-- The provider request a `handleAngleSelect` invocation issued: the base
image it sent, the angle instruction, and the session state at the moment of
the `generateAngleVariation` call. -/
structure GenCall where
  base : String
  instruction : String
  stateAtCall : AppState
  deriving DecidableEq, Repr

/-- `handleAngleSelect`: gate on loading / same index / missing box, serve
cache hits without a call, pick the first cache value as regeneration base,
optimistically switch the index, call the provider, and on failure roll the
index back and record the error.  Returns the new state together with the
request issued, if any. -/
def handleAngleSelect (friendly : String → String → String) (genResult : Except String String)
    (s : AppState) (newIndex : Nat) : AppState × Option GenCall :=
  if s.isLoading ∨ newIndex = s.currentAngleIndex ∨ s.selectedBox.isNone then (s, none)
  else
    let angleInstruction := ANGLE_INSTRUCTIONS.getD newIndex ""
    if strTruthy (s.generatedImages.lookup angleInstruction) then
      ({ s with currentAngleIndex := newIndex }, none)
    else
      match s.generatedImages.head?.map (·.2) with
      | none => (s, none)
      | some baseImageForAngleChange =>
        if baseImageForAngleChange = "" then (s, none)
        else
          let prevAngleIndex := s.currentAngleIndex
          let sCall : AppState :=
            { s with
              error := none
              isLoading := true
              loadingMessage := "Cambiando la vista a \"" ++ angleInstruction ++ "\"..."
              currentAngleIndex := newIndex }
          let s2 : AppState :=
            match genResult with
            | .ok newImageUrl =>
              { sCall with generatedImages := insertJS s.generatedImages angleInstruction newImageUrl }
            | .error err =>
              { sCall with
                error := some (friendly err "No se pudo cambiar la vista")
                currentAngleIndex := prevAngleIndex }
          ({ s2 with isLoading := false, loadingMessage := "" },
           some { base := baseImageForAngleChange
                  instruction := angleInstruction
                  stateAtCall := sCall })

/-! ## Concrete sample data used to instantiate theorems -/

/-- A `getFriendlyErrorMessage` stand-in that returns the raw error. -/
def friendlyRaw : String → String → String := fun e _ => e

/-- A sample logo file. -/
def exLogo : LogoFile := ⟨"logo.png"⟩

/-- A sample active session: box and logo selected, two cached variants in
insertion order, the second one currently selected, not loading. -/
def exActive : AppState :=
  { selectedBox := some defaultBox
    logoFile := some exLogo
    generatedImages := [("Vista Frontal", "data:I1"), ("Vista en Ángulo", "data:I2")]
    currentAngleIndex := 1
    isLoading := false
    loadingMessage := ""
    error := none }

/-- A sample state with a request in flight (`pending = true`). -/
def exPending : AppState :=
  { selectedBox := none
    logoFile := none
    generatedImages := []
    currentAngleIndex := 0
    isLoading := true
    loadingMessage := "Colocando tu logo en la Caja de Regalo de Cartón..."
    error := none }

/-! ## Helper lemmas -/

/-- `List.lookup` on a cons cell, with the `BEq` test spelled as `=`. -/
theorem lookup_cons (k k' v : String) (rest : List (String × String)) :
    List.lookup k' ((k, v) :: rest) = if k' = k then some v else List.lookup k' rest := by
  by_cases h : k' = k
  · subst h; simp [List.lookup]
  · simp [List.lookup, beq_eq_decide, h]

/-- `insertJS` leaves the binding of every other key unchanged. -/
theorem lookup_insertJS_ne (m : List (String × String)) (k v k' : String) (h : k' ≠ k) :
    (insertJS m k v).lookup k' = m.lookup k' := by
  induction m with
  | nil =>
    simp only [insertJS, lookup_cons, if_neg h]
  | cons p rest ih =>
    obtain ⟨k₀, v₀⟩ := p
    by_cases hk : k₀ = k
    · subst hk
      simp [insertJS, lookup_cons, h]
    · simp only [insertJS, if_neg hk, lookup_cons, ih]

/-- `handleAngleSelect` branch equation: the single-flight / same-index /
no-box gate returns the state unchanged with no call. -/
theorem handleAngleSelect_gate (friendly : String → String → String)
    (genResult : Except String String) (s : AppState) (newIndex : Nat)
    (h : s.isLoading = true ∨ newIndex = s.currentAngleIndex ∨ s.selectedBox.isNone = true) :
    handleAngleSelect friendly genResult s newIndex = (s, none) := by
  unfold handleAngleSelect
  rw [if_pos h]

/-- `handleAngleSelect` branch equation: a cache hit only switches the index
and issues no call. -/
theorem handleAngleSelect_hit (friendly : String → String → String)
    (genResult : Except String String) (s : AppState) (newIndex : Nat)
    (h1 : ¬(s.isLoading = true ∨ newIndex = s.currentAngleIndex ∨ s.selectedBox.isNone = true))
    (h2 : strTruthy (s.generatedImages.lookup (ANGLE_INSTRUCTIONS.getD newIndex "")) = true) :
    handleAngleSelect friendly genResult s newIndex =
      ({ s with currentAngleIndex := newIndex }, none) := by
  unfold handleAngleSelect
  rw [if_neg h1]
  simp only [h2, if_pos]

/-- `handleAngleSelect` branch equation: a cache miss with an empty cache is a
silent no-op. -/
theorem handleAngleSelect_nobase (friendly : String → String → String)
    (genResult : Except String String) (s : AppState) (newIndex : Nat)
    (h1 : ¬(s.isLoading = true ∨ newIndex = s.currentAngleIndex ∨ s.selectedBox.isNone = true))
    (h2 : strTruthy (s.generatedImages.lookup (ANGLE_INSTRUCTIONS.getD newIndex "")) = false)
    (h3 : s.generatedImages.head?.map (·.2) = none) :
    handleAngleSelect friendly genResult s newIndex = (s, none) := by
  unfold handleAngleSelect
  rw [if_neg h1]
  simp only [h2, Bool.false_eq_true, if_false, h3]

/-- `handleAngleSelect` branch equation: a cache miss whose first cache value
is the empty string (falsy base) is a silent no-op. -/
theorem handleAngleSelect_emptybase (friendly : String → String → String)
    (genResult : Except String String) (s : AppState) (newIndex : Nat)
    (h1 : ¬(s.isLoading = true ∨ newIndex = s.currentAngleIndex ∨ s.selectedBox.isNone = true))
    (h2 : strTruthy (s.generatedImages.lookup (ANGLE_INSTRUCTIONS.getD newIndex "")) = false)
    (h3 : s.generatedImages.head?.map (·.2) = some "") :
    handleAngleSelect friendly genResult s newIndex = (s, none) := by
  unfold handleAngleSelect
  rw [if_neg h1]
  simp only [h2, Bool.false_eq_true, if_false, h3]
  simp

/-- `handleAngleSelect` branch equation: successful regeneration on a cache
miss inserts the new image at the target key; the request carries the first
cache value as base and was issued with the index already switched. -/
theorem handleAngleSelect_miss_ok (friendly : String → String → String)
    (url : String) (s : AppState) (newIndex : Nat) (base : String)
    (h1 : ¬(s.isLoading = true ∨ newIndex = s.currentAngleIndex ∨ s.selectedBox.isNone = true))
    (h2 : strTruthy (s.generatedImages.lookup (ANGLE_INSTRUCTIONS.getD newIndex "")) = false)
    (h3 : s.generatedImages.head?.map (·.2) = some base)
    (h4 : base ≠ "") :
    handleAngleSelect friendly (.ok url) s newIndex =
      ({ s with
          generatedImages := insertJS s.generatedImages (ANGLE_INSTRUCTIONS.getD newIndex "") url
          currentAngleIndex := newIndex
          isLoading := false
          loadingMessage := ""
          error := none },
       some { base := base
              instruction := ANGLE_INSTRUCTIONS.getD newIndex ""
              stateAtCall :=
                { s with
                    error := none
                    isLoading := true
                    loadingMessage := "Cambiando la vista a \"" ++ ANGLE_INSTRUCTIONS.getD newIndex "" ++ "\"..."
                    currentAngleIndex := newIndex } }) := by
  unfold handleAngleSelect
  rw [if_neg h1]
  simp only [h2, Bool.false_eq_true, if_false, h3, if_neg h4]

/-- `handleAngleSelect` branch equation: failed regeneration on a cache miss
rolls the index back, records the error, and leaves the cache unchanged. -/
theorem handleAngleSelect_miss_err (friendly : String → String → String)
    (err : String) (s : AppState) (newIndex : Nat) (base : String)
    (h1 : ¬(s.isLoading = true ∨ newIndex = s.currentAngleIndex ∨ s.selectedBox.isNone = true))
    (h2 : strTruthy (s.generatedImages.lookup (ANGLE_INSTRUCTIONS.getD newIndex "")) = false)
    (h3 : s.generatedImages.head?.map (·.2) = some base)
    (h4 : base ≠ "") :
    handleAngleSelect friendly (.error err) s newIndex =
      ({ s with
          error := some (friendly err "No se pudo cambiar la vista")
          isLoading := false
          loadingMessage := "" },
       some { base := base
              instruction := ANGLE_INSTRUCTIONS.getD newIndex ""
              stateAtCall :=
                { s with
                    error := none
                    isLoading := true
                    loadingMessage := "Cambiando la vista a \"" ++ ANGLE_INSTRUCTIONS.getD newIndex "" ++ "\"..."
                    currentAngleIndex := newIndex } }) := by
  unfold handleAngleSelect
  rw [if_neg h1]
  simp only [h2, Bool.false_eq_true, if_false, h3, if_neg h4]

/-- `handleStart` equation on a successful generation: selection set, error
cleared, cache replaced by the single fresh first-view entry. -/
theorem handleStart_ok (friendly : String → String → String) (url : String)
    (s : AppState) (box : BoxItem) (logo : LogoFile) :
    handleStart friendly (.ok url) s box logo =
      { final :=
          { s with
              selectedBox := some box
              logoFile := some logo
              error := none
              generatedImages := [(ANGLE_INSTRUCTIONS.getD 0 "", url)]
              currentAngleIndex := 0
              isLoading := false
              loadingMessage := "" }
        stateAtCall :=
          { s with
              selectedBox := some box
              logoFile := some logo
              error := none
              isLoading := true
              loadingMessage := "Colocando tu logo en la " ++ box.name ++ "..." } } := rfl

/-- `handleStart` equation on a failed generation: selection cleared, error
recorded, cache left exactly as it was. -/
theorem handleStart_err (friendly : String → String → String) (err : String)
    (s : AppState) (box : BoxItem) (logo : LogoFile) :
    handleStart friendly (.error err) s box logo =
      { final :=
          { s with
              selectedBox := none
              logoFile := none
              error := some (friendly err "No se pudo generar la maqueta")
              isLoading := false
              loadingMessage := "" }
        stateAtCall :=
          { s with
              selectedBox := some box
              logoFile := some logo
              error := none
              isLoading := true
              loadingMessage := "Colocando tu logo en la " ++ box.name ++ "..." } } := rfl

/-- The cache after `handleAngleSelect` is either unchanged, or — only when
the provider call succeeded and the target key was not truthy-cached — the
spread insertion of the new image at the target key. -/
theorem generatedImages_handleAngleSelect (friendly : String → String → String)
    (genResult : Except String String) (s : AppState) (newIndex : Nat) :
    (handleAngleSelect friendly genResult s newIndex).1.generatedImages = s.generatedImages ∨
    (∃ url, genResult = .ok url ∧
      strTruthy (s.generatedImages.lookup (ANGLE_INSTRUCTIONS.getD newIndex "")) = false ∧
      (handleAngleSelect friendly genResult s newIndex).1.generatedImages =
        insertJS s.generatedImages (ANGLE_INSTRUCTIONS.getD newIndex "") url) := by
  by_cases h1 : (s.isLoading = true ∨ newIndex = s.currentAngleIndex ∨ s.selectedBox.isNone = true)
  · left; rw [handleAngleSelect_gate _ _ _ _ h1]
  · cases h2 : strTruthy (s.generatedImages.lookup (ANGLE_INSTRUCTIONS.getD newIndex "")) with
    | true => left; rw [handleAngleSelect_hit _ _ _ _ h1 h2]
    | false =>
      cases hh : s.generatedImages.head?.map (·.2) with
      | none => left; rw [handleAngleSelect_nobase _ _ _ _ h1 h2 hh]
      | some base =>
        by_cases h4 : base = ""
        · subst h4; left; rw [handleAngleSelect_emptybase _ _ _ _ h1 h2 hh]
        · cases genResult with
          | error err => left; rw [handleAngleSelect_miss_err _ _ _ _ _ h1 h2 hh h4]
          | ok url =>
            right
            exact ⟨url, rfl, rfl, by rw [handleAngleSelect_miss_ok _ _ _ _ _ h1 h2 hh h4]⟩

/-- A sample active session with an empty cache. -/
def exEmpty : AppState :=
  { selectedBox := some defaultBox
    logoFile := some exLogo
    generatedImages := []
    currentAngleIndex := 0
    isLoading := false
    loadingMessage := ""
    error := none }

/-- A sample provider response carrying a top-level block reason. -/
def exBlocked : GenerateContentResponse :=
  { promptFeedback := some { blockReason := some "SAFETY", blockReasonMessage := none }
    candidates := none
    text := none }

/-- The request issued by `handleAngleSelect` on `exActive` with target
index 2: base is the first cache value, index already switched at call
time. -/
def exCall : GenCall :=
  { base := "data:I1"
    instruction := "Vista Superior"
    stateAtCall :=
      { exActive with
          currentAngleIndex := 2
          isLoading := true
          loadingMessage := "Cambiando la vista a \"Vista Superior\"..."
          error := none } }

/-! ## Claims -/

/-- C1 (amended): the single-flight gate protects only `SelectView`: while
`pending` (`isLoading`) is true any `handleAngleSelect` call is ignored and
mutates nothing, but `handleStart` is not gated — it proceeds to the provider
call with the base/logo selection already mutated to the new pair. -/
theorem single_flight_gate_amended (friendly : String → String → String)
    (genResult : Except String String) (s : AppState) (newIndex : Nat)
    (box : BoxItem) (logo : LogoFile) :
    (s.isLoading = true → handleAngleSelect friendly genResult s newIndex = (s, none)) ∧
    (handleStart friendly genResult s box logo).stateAtCall.selectedBox = some box ∧
    (handleStart friendly genResult s box logo).stateAtCall.isLoading = true :=
  ⟨fun h => handleAngleSelect_gate friendly genResult s newIndex (Or.inl h), rfl, rfl⟩

/-- C1 witness: on a concrete pending state, `SelectView` is a no-op while
`Start` reaches its provider call with the box selected. -/
theorem single_flight_gate_amended_witness :
    (handleAngleSelect friendlyRaw (Except.ok "data:u") exPending 2 = (exPending, none)) ∧
    (handleStart friendlyRaw (Except.ok "data:u") exPending defaultBox exLogo).stateAtCall.selectedBox
      = some defaultBox :=
  ⟨(single_flight_gate_amended friendlyRaw (Except.ok "data:u") exPending 2 defaultBox exLogo).1 rfl,
   (single_flight_gate_amended friendlyRaw (Except.ok "data:u") exPending 2 defaultBox exLogo).2.1⟩

/-- C1 counterexample: in a state with `pending = true`, a `handleStart` call
is not rejected: it mutates both the base/logo selection and the variant
cache, refuting the claim that any `Start` while pending mutates neither. -/
theorem single_flight_gate_counterexample :
    exPending.isLoading = true ∧
    (handleStart friendlyRaw (Except.ok "data:u") exPending defaultBox exLogo).final.selectedBox
      ≠ exPending.selectedBox ∧
    (handleStart friendlyRaw (Except.ok "data:u") exPending defaultBox exLogo).final.generatedImages
      ≠ exPending.generatedImages := by
  refine ⟨rfl, ?_, ?_⟩ <;> simp [handleStart_ok, exPending]

/-- C2: from `selectedView = A` with no cache entry for the target, a
`SelectView` whose regeneration fails rolls `selectedView` back to `A`, leaves
the cache exactly as before, ends with `pending = false`, and records the
error. -/
theorem rollback_on_failed_select (friendly : String → String → String) (err : String)
    (s : AppState) (newIndex : Nat) (b : BoxItem)
    (hload : s.isLoading = false)
    (hne : newIndex ≠ s.currentAngleIndex)
    (hbox : s.selectedBox = some b)
    (hmiss : s.generatedImages.lookup (ANGLE_INSTRUCTIONS.getD newIndex "") = none)
    (base : String)
    (hbase : s.generatedImages.head?.map (·.2) = some base)
    (hbase' : base ≠ "") :
    (handleAngleSelect friendly (.error err) s newIndex).1.currentAngleIndex = s.currentAngleIndex ∧
    (handleAngleSelect friendly (.error err) s newIndex).1.generatedImages = s.generatedImages ∧
    (handleAngleSelect friendly (.error err) s newIndex).1.isLoading = false ∧
    (handleAngleSelect friendly (.error err) s newIndex).1.error
      = some (friendly err "No se pudo cambiar la vista") := by
  have h1 : ¬(s.isLoading = true ∨ newIndex = s.currentAngleIndex ∨ s.selectedBox.isNone = true) := by
    simp [hload, hne, hbox]
  rw [handleAngleSelect_miss_err friendly err s newIndex base h1 (by rw [hmiss]; rfl) hbase hbase']
  exact ⟨rfl, rfl, rfl, rfl⟩

/-- C2 witness: concrete failing `SelectView(Vista Superior)` from index 1. -/
theorem rollback_on_failed_select_witness :
    (handleAngleSelect friendlyRaw (.error "boom") exActive 2).1.currentAngleIndex
      = exActive.currentAngleIndex ∧
    (handleAngleSelect friendlyRaw (.error "boom") exActive 2).1.generatedImages
      = exActive.generatedImages ∧
    (handleAngleSelect friendlyRaw (.error "boom") exActive 2).1.isLoading = false ∧
    (handleAngleSelect friendlyRaw (.error "boom") exActive 2).1.error
      = some (friendlyRaw "boom" "No se pudo cambiar la vista") :=
  rollback_on_failed_select friendlyRaw "boom" exActive 2 defaultBox rfl (by decide) rfl rfl
    "data:I1" rfl (by decide)

/-- C3 (amended): a failing `Start` clears the base/logo selection, records
the error and clears `pending`, but it does not reset the cache: the cache is
left exactly as it was before the call, so pre-existing entries survive. -/
theorem initial_failure_unwind_amended (friendly : String → String → String) (err : String)
    (s : AppState) (box : BoxItem) (logo : LogoFile) :
    (handleStart friendly (.error err) s box logo).final.selectedBox = none ∧
    (handleStart friendly (.error err) s box logo).final.logoFile = none ∧
    (handleStart friendly (.error err) s box logo).final.error
      = some (friendly err "No se pudo generar la maqueta") ∧
    (handleStart friendly (.error err) s box logo).final.isLoading = false ∧
    (handleStart friendly (.error err) s box logo).final.generatedImages = s.generatedImages :=
  ⟨rfl, rfl, rfl, rfl, rfl⟩

/-- C3 counterexample: a failing `handleStart` invoked from a state with a
non-empty cache leaves those cache entries in place, refuting the claim that
the system is left with no cache entries (and with it the claim that `Start`
resets the cache to empty). -/
theorem initial_failure_unwind_counterexample :
    exActive.generatedImages ≠ [] ∧
    (handleStart friendlyRaw (.error "boom") exActive defaultBox exLogo).final.generatedImages
      = exActive.generatedImages ∧
    (handleStart friendlyRaw (.error "boom") exActive defaultBox exLogo).final.generatedImages
      ≠ [] := by
  refine ⟨?_, rfl, ?_⟩ <;> simp [handleStart_err, exActive]

/-- C4: `handleApiResponse` checks, in order: a truthy top-level block reason
fails with the blocked-request error; otherwise the first candidate containing
an inline image short-circuits to success with its payload; otherwise a
present non-`STOP` finish reason on the first candidate fails with the
abnormal-completion error; otherwise it fails with the no-image error carrying
the accompanying text. -/
theorem interpreter_ordered_fallback (r : GenerateContentResponse) :
    (∀ pf br, r.promptFeedback = some pf → pf.blockReason = some br → br ≠ "" →
      handleApiResponse r = .error (blockedMsg br pf.blockReasonMessage)) ∧
    (strTruthy (r.promptFeedback.bind (·.blockReason)) = false →
      ∀ d, firstImage (r.candidates.getD []) = some d →
        handleApiResponse r = .ok ("data:" ++ d.mimeType ++ ";base64," ++ d.data)) ∧
    (strTruthy (r.promptFeedback.bind (·.blockReason)) = false →
      firstImage (r.candidates.getD []) = none →
      ∀ fr, ((r.candidates.getD []).head?).bind (·.finishReason) = some fr →
        fr ≠ "" → fr ≠ "STOP" →
        handleApiResponse r = .error (abnormalMsg fr)) ∧
    (strTruthy (r.promptFeedback.bind (·.blockReason)) = false →
      firstImage (r.candidates.getD []) = none →
      (((r.candidates.getD []).head?).bind (·.finishReason) = none ∨
        ((r.candidates.getD []).head?).bind (·.finishReason) = some "STOP" ∨
        ((r.candidates.getD []).head?).bind (·.finishReason) = some "") →
      handleApiResponse r = .error (noImageMsg r.text)) := by
  refine ⟨?_, ?_, ?_, ?_⟩
  · intro pf br hpf hbr hne
    have ht : strTruthy (r.promptFeedback.bind (·.blockReason)) = true := by
      simp [hpf, hbr, strTruthy, hne]
    unfold handleApiResponse
    rw [if_pos ht, hpf]
    simp [hbr]
  · intro hb d hd
    unfold handleApiResponse
    rw [if_neg (by simp [hb]), hd]
  · intro hb hfi fr hfr hne hstop
    unfold handleApiResponse
    rw [if_neg (by simp [hb]), hfi]
    simp only [hfr]
    rw [if_pos ⟨hne, hstop⟩]
  · intro hb hfi hfr
    unfold handleApiResponse
    rw [if_neg (by simp [hb]), hfi]
    rcases hfr with h | h | h <;> simp [h]

/-- C4 witness: a response with block reason `SAFETY` fails with the blocked
message. -/
theorem interpreter_ordered_fallback_witness :
    handleApiResponse exBlocked = .error (blockedMsg "SAFETY" none) :=
  (interpreter_ordered_fallback exBlocked).1
    { blockReason := some "SAFETY", blockReasonMessage := none } "SAFETY" rfl rfl (by decide)

/-- C5: on a cache miss with a non-empty cache, the regeneration request uses
the first-inserted cache entry's value as its base image — not the image of
the currently selected view — and the selected index is already the target at
the moment of the call (optimistic switch). -/
theorem regeneration_base_first_entry (friendly : String → String → String)
    (genResult : Except String String) (s : AppState) (newIndex : Nat) (b : BoxItem)
    (hload : s.isLoading = false)
    (hne : newIndex ≠ s.currentAngleIndex)
    (hbox : s.selectedBox = some b)
    (hmiss : s.generatedImages.lookup (ANGLE_INSTRUCTIONS.getD newIndex "") = none)
    (k0 v0 : String)
    (hhead : s.generatedImages.head? = some (k0, v0))
    (hv0 : v0 ≠ "") :
    (handleAngleSelect friendly genResult s newIndex).2 =
      some { base := v0
             instruction := ANGLE_INSTRUCTIONS.getD newIndex ""
             stateAtCall :=
               { s with
                   error := none
                   isLoading := true
                   loadingMessage := "Cambiando la vista a \"" ++ ANGLE_INSTRUCTIONS.getD newIndex "" ++ "\"..."
                   currentAngleIndex := newIndex } } := by
  have h1 : ¬(s.isLoading = true ∨ newIndex = s.currentAngleIndex ∨ s.selectedBox.isNone = true) := by
    simp [hload, hne, hbox]
  have h2 : strTruthy (s.generatedImages.lookup (ANGLE_INSTRUCTIONS.getD newIndex "")) = false := by
    rw [hmiss]; rfl
  have h3 : s.generatedImages.head?.map (·.2) = some v0 := by rw [hhead]; rfl
  cases genResult with
  | ok url => rw [handleAngleSelect_miss_ok friendly url s newIndex v0 h1 h2 h3 hv0]
  | error err => rw [handleAngleSelect_miss_err friendly err s newIndex v0 h1 h2 h3 hv0]

/-- C5 witness: selecting index 2 on the concrete two-entry cache regenerates
from `data:I1`, the first-inserted value, with the index already at 2. -/
theorem regeneration_base_first_entry_witness :
    (handleAngleSelect friendlyRaw (.ok "data:I3") exActive 2).2 =
      some { base := "data:I1"
             instruction := ANGLE_INSTRUCTIONS.getD 2 ""
             stateAtCall :=
               { exActive with
                   error := none
                   isLoading := true
                   loadingMessage := "Cambiando la vista a \"" ++ ANGLE_INSTRUCTIONS.getD 2 "" ++ "\"..."
                   currentAngleIndex := 2 } } :=
  regeneration_base_first_entry friendlyRaw (.ok "data:I3") exActive 2 defaultBox rfl (by decide)
    rfl rfl "Vista Frontal" "data:I1" rfl (by decide)

/-- C6: selecting a view that is already cached (not pending, different from
the current selection) issues no provider call, sets the selected index to the
target, and leaves every other state field — the cache included — unchanged. -/
theorem cache_hit_idempotence (friendly : String → String → String)
    (genResult : Except String String) (s : AppState) (newIndex : Nat) (b : BoxItem) (img : String)
    (hload : s.isLoading = false)
    (hne : newIndex ≠ s.currentAngleIndex)
    (hbox : s.selectedBox = some b)
    (hhit : s.generatedImages.lookup (ANGLE_INSTRUCTIONS.getD newIndex "") = some img)
    (himg : img ≠ "") :
    handleAngleSelect friendly genResult s newIndex =
      ({ s with currentAngleIndex := newIndex }, none) := by
  apply handleAngleSelect_hit
  · simp [hload, hne, hbox]
  · rw [hhit]
    simp [strTruthy, himg]

/-- C6 witness: selecting the cached `Vista Frontal` from index 1 switches to
index 0 with no call. -/
theorem cache_hit_idempotence_witness :
    handleAngleSelect friendlyRaw (.ok "data:I9") exActive 0 =
      ({ exActive with currentAngleIndex := 0 }, none) :=
  cache_hit_idempotence friendlyRaw (.ok "data:I9") exActive 0 defaultBox "data:I1" rfl
    (by decide) rfl rfl (by decide)

/-- C7: the displayed image is `cache[selectedView]` when present, else the
first cache value in insertion order, else the base image reference; it is
defined whenever the cache is non-empty or a base image reference is set. -/
theorem displayed_image_resolution (s : AppState) :
    (∀ img, s.generatedImages.lookup (ANGLE_INSTRUCTIONS.getD s.currentAngleIndex "") = some img →
      displayImageUrl s = some img) ∧
    (s.generatedImages.lookup (ANGLE_INSTRUCTIONS.getD s.currentAngleIndex "") = none →
      ∀ k v, s.generatedImages.head? = some (k, v) → displayImageUrl s = some v) ∧
    (s.generatedImages.lookup (ANGLE_INSTRUCTIONS.getD s.currentAngleIndex "") = none →
      s.generatedImages.head? = none → displayImageUrl s = s.selectedBox.map (·.url)) ∧
    ((s.generatedImages ≠ [] ∨ s.selectedBox.isSome = true) →
      (displayImageUrl s).isSome = true) := by
  refine ⟨?_, ?_, ?_, ?_⟩
  · intro img h
    simp only [displayImageUrl]
    rw [h]
    rfl
  · intro h k v hh
    simp only [displayImageUrl]
    rw [h, hh]
    rfl
  · intro h hh
    simp only [displayImageUrl]
    rw [h, hh]
    rfl
  · intro h
    simp only [displayImageUrl]
    cases hl : s.generatedImages.lookup (ANGLE_INSTRUCTIONS.getD s.currentAngleIndex "") with
    | some img => rfl
    | none =>
      cases hg : s.generatedImages with
      | cons p rest => rfl
      | nil =>
        rcases h with h | h
        · exact absurd hg h
        · cases hb : s.selectedBox with
          | some b => rfl
          | none => rw [hb] at h; simp at h

/-- C7 witness: on the concrete session, the selected view's cached image is
displayed, and the result is defined. -/
theorem displayed_image_resolution_witness :
    displayImageUrl exActive = some "data:I2" ∧
    (displayImageUrl exActive).isSome = true :=
  ⟨(displayed_image_resolution exActive).1 "data:I2" rfl,
   (displayed_image_resolution exActive).2.2.2 (Or.inr rfl)⟩

/-- C8: a non-empty cache entry is never overwritten by `handleAngleSelect`
(hit, miss, success or failure alike); a successful `handleStart` replaces the
whole cache with the single fresh first-view entry; a failed `handleStart`
leaves the cache untouched. -/
theorem no_silent_overwrite (friendly : String → String → String)
    (genResult : Except String String) (s : AppState) (newIndex : Nat)
    (box : BoxItem) (logo : LogoFile) (url err : String) :
    (∀ V img, s.generatedImages.lookup V = some img → img ≠ "" →
      (handleAngleSelect friendly genResult s newIndex).1.generatedImages.lookup V = some img) ∧
    (handleStart friendly (.ok url) s box logo).final.generatedImages
      = [(ANGLE_INSTRUCTIONS.getD 0 "", url)] ∧
    (handleStart friendly (.error err) s box logo).final.generatedImages
      = s.generatedImages := by
  refine ⟨?_, rfl, rfl⟩
  intro V img hV himg
  rcases generatedImages_handleAngleSelect friendly genResult s newIndex with h | ⟨u, _, hfalse, hins⟩
  · rw [h]; exact hV
  · rw [hins]
    have hVne : V ≠ ANGLE_INSTRUCTIONS.getD newIndex "" := by
      intro hEq
      rw [hEq] at hV
      rw [hV] at hfalse
      simp [strTruthy] at hfalse
      exact himg hfalse
    rw [lookup_insertJS_ne _ _ _ _ hVne]
    exact hV

/-- C8 witness: after a successful regeneration of `Vista Superior`, the
pre-existing `Vista Frontal` entry is intact, and a successful `Start`
produces the single-entry cache. -/
theorem no_silent_overwrite_witness :
    (handleAngleSelect friendlyRaw (.ok "data:I3") exActive 2).1.generatedImages.lookup
      "Vista Frontal" = some "data:I1" ∧
    (handleStart friendlyRaw (.ok "data:u") exActive defaultBox exLogo).final.generatedImages
      = [(ANGLE_INSTRUCTIONS.getD 0 "", "data:u")] :=
  ⟨(no_silent_overwrite friendlyRaw (.ok "data:I3") exActive 2 defaultBox exLogo "data:u" "e").1
      "Vista Frontal" "data:I1" rfl (by decide),
   (no_silent_overwrite friendlyRaw (.ok "data:I3") exActive 2 defaultBox exLogo "data:u" "e").2.1⟩

/-- C9 (implicit): a `SelectView` on an uncached target with no usable base —
no box selected or an empty cache — returns without a provider request and
without changing any state field, raising no error. -/
theorem select_view_silent_noop (friendly : String → String → String)
    (genResult : Except String String) (s : AppState) (newIndex : Nat)
    (hmiss : s.generatedImages.lookup (ANGLE_INSTRUCTIONS.getD newIndex "") = none)
    (hnb : s.selectedBox = none ∨ s.generatedImages = []) :
    handleAngleSelect friendly genResult s newIndex = (s, none) := by
  by_cases h1 : (s.isLoading = true ∨ newIndex = s.currentAngleIndex ∨ s.selectedBox.isNone = true)
  · exact handleAngleSelect_gate _ _ _ _ h1
  · rcases hnb with hbox | hnil
    · exact absurd (Or.inr (Or.inr (by simp [hbox]))) h1
    · exact handleAngleSelect_nobase _ _ _ _ h1 (by rw [hmiss]; rfl) (by rw [hnil]; rfl)

/-- C9 witness: a miss on the empty-cache session is a silent no-op. -/
theorem select_view_silent_noop_witness :
    handleAngleSelect friendlyRaw (.ok "data:u") exEmpty 1 = (exEmpty, none) :=
  select_view_silent_noop friendlyRaw (.ok "data:u") exEmpty 1 rfl (Or.inr rfl)

/-- C10 (implicit): every transition that issues a provider request does so
with the recorded error already cleared to `null` (`handleStart` always; any
`handleAngleSelect` that reports a request), whereas a cache-hit
`handleAngleSelect` leaves the previously recorded error unchanged. -/
theorem error_clearing_asymmetry (friendly : String → String → String)
    (genResult : Except String String) (s : AppState) (newIndex : Nat)
    (box : BoxItem) (logo : LogoFile) (b : BoxItem) (img : String) :
    (handleStart friendly genResult s box logo).stateAtCall.error = none ∧
    (∀ c, (handleAngleSelect friendly genResult s newIndex).2 = some c →
      c.stateAtCall.error = none) ∧
    (s.isLoading = false → newIndex ≠ s.currentAngleIndex → s.selectedBox = some b →
      s.generatedImages.lookup (ANGLE_INSTRUCTIONS.getD newIndex "") = some img → img ≠ "" →
      (handleAngleSelect friendly genResult s newIndex).1.error = s.error) := by
  refine ⟨rfl, ?_, ?_⟩
  · intro c hc
    by_cases h1 : (s.isLoading = true ∨ newIndex = s.currentAngleIndex ∨ s.selectedBox.isNone = true)
    · rw [handleAngleSelect_gate _ _ _ _ h1] at hc
      simp at hc
    · cases h2 : strTruthy (s.generatedImages.lookup (ANGLE_INSTRUCTIONS.getD newIndex "")) with
      | true =>
        rw [handleAngleSelect_hit _ _ _ _ h1 h2] at hc
        simp at hc
      | false =>
        cases hh : s.generatedImages.head?.map (·.2) with
        | none =>
          rw [handleAngleSelect_nobase _ _ _ _ h1 h2 hh] at hc
          simp at hc
        | some base =>
          by_cases h4 : base = ""
          · subst h4
            rw [handleAngleSelect_emptybase _ _ _ _ h1 h2 hh] at hc
            simp at hc
          · cases genResult with
            | ok url =>
              rw [handleAngleSelect_miss_ok _ _ _ _ _ h1 h2 hh h4] at hc
              injection hc with hcc
              rw [← hcc]
            | error err =>
              rw [handleAngleSelect_miss_err _ _ _ _ _ h1 h2 hh h4] at hc
              injection hc with hcc
              rw [← hcc]
  · intro hload hne hbox hhit himg
    rw [handleAngleSelect_hit _ _ _ _ (by simp [hload, hne, hbox])
      (by rw [hhit]; simp [strTruthy, himg])]

/-- C10 witness: `Start` and the miss-path request both carry a cleared error,
while a cache-hit switch preserves the recorded error. -/
theorem error_clearing_asymmetry_witness :
    (handleStart friendlyRaw (.ok "data:I3") exActive defaultBox exLogo).stateAtCall.error
      = none ∧
    exCall.stateAtCall.error = none ∧
    (handleAngleSelect friendlyRaw (.ok "data:I3") exActive 0).1.error = exActive.error :=
  ⟨(error_clearing_asymmetry friendlyRaw (.ok "data:I3") exActive 0 defaultBox exLogo
      defaultBox "data:I1").1,
   (error_clearing_asymmetry friendlyRaw (.ok "data:I3") exActive 2 defaultBox exLogo
      defaultBox "data:I1").2.1 exCall
     (by rw [handleAngleSelect_miss_ok friendlyRaw "data:I3" exActive 2 "data:I1"
          (by decide) rfl rfl (by decide)]; rfl),
   (error_clearing_asymmetry friendlyRaw (.ok "data:I3") exActive 0 defaultBox exLogo
      defaultBox "data:I1").2.2 rfl (by decide) rfl rfl (by decide)⟩

end TastyBox
